import Mathlib

/-!
Verification of the MPEG-2 Transport Stream parser
(`tsTransportStream.cpp/h`, `pesParse.cpp/h`) against its natural-language
specification.  The C++ classes are shallowly embedded: buffers become
functions `Nat → Nat` (a byte pointer), machine integers become `Nat`
(with `Int` for the signed return codes), each mutating `Parse`/`Absorb`
method becomes a pure function returning the updated object together with
its `int32_t` result, and the assembler's growable byte buffer becomes a
`List Nat` holding exactly the `m_DataOffset` accumulated bytes.
-/

set_option maxRecDepth 4096

/-- `NOT_VALID` error code from `tsCommon.h` / the parser classes. -/
def NOT_VALID : Int := -1

namespace xTS

/-- Total length of a transport packet (`xTS::TS_PacketLength`). -/
def TS_PacketLength : Nat := 188

/-- Length of the transport packet header (`xTS::TS_HeaderLength`). -/
def TS_HeaderLength : Nat := 4

/-- Length of the basic PES header (`xTS::PES_HeaderLength`). -/
def PES_HeaderLength : Nat := 6

end xTS

/-- The eight fields of `class xTS_PacketHeader`. -/
structure xTS_PacketHeader where
  m_SB : Nat
  m_E : Nat
  m_S : Nat
  m_T : Nat
  m_PID : Nat
  m_TSC : Nat
  m_AFC : Nat
  m_CC : Nat
deriving Inhabited

namespace xTS_PacketHeader

/-- `xTS_PacketHeader::Reset`: every field is cleared to zero. -/
def Reset (_h : xTS_PacketHeader) : xTS_PacketHeader :=
  { m_SB := 0, m_E := 0, m_S := 0, m_T := 0, m_PID := 0, m_TSC := 0, m_AFC := 0, m_CC := 0 }

/-- `xTS_PacketHeader::Parse`: reads the 4-byte header from `Input`.
`m_SB` is assigned before the sync check; on a sync mismatch the function
returns `NOT_VALID` with the remaining fields untouched, otherwise it
extracts the bit fields of bytes 1–3 and returns `xTS::TS_HeaderLength`. -/
def Parse (h : xTS_PacketHeader) (Input : Nat → Nat) : xTS_PacketHeader × Int :=
  let h1 := { h with m_SB := Input 0 }
  if h1.m_SB ≠ 0x47 then (h1, NOT_VALID)
  else
    ({ h1 with
        m_E := (Input 1 &&& 0x80) >>> 7
        m_S := (Input 1 &&& 0x40) >>> 6
        m_T := (Input 1 &&& 0x20) >>> 5
        m_PID := ((Input 1 &&& 0x1F) <<< 8) ||| Input 2
        m_TSC := (Input 3 &&& 0xC0) >>> 6
        m_AFC := (Input 3 &&& 0x30) >>> 4
        m_CC := Input 3 &&& 0x0F },
      (xTS.TS_HeaderLength : Int))

end xTS_PacketHeader

/-! Bit-arithmetic bridge lemmas: the C code extracts fields with masks and
shifts; the spec describes them as bit ranges of bytes.  These lemmas relate
the two for byte-sized operands. -/

theorem lor_shift (m k w : Nat) (hk : k < 2 ^ w) : (m <<< w) ||| k = m * 2 ^ w + k := by
  rw [Nat.shiftLeft_eq, Nat.mul_comm m (2 ^ w)]
  exact (Nat.mul_add_lt_is_or hk m).symm

theorem byte_bit7 : ∀ n, n < 256 → (n &&& 0x80) >>> 7 = n / 128 % 2 := by decide

theorem byte_bit6 : ∀ n, n < 256 → (n &&& 0x40) >>> 6 = n / 64 % 2 := by decide

theorem byte_bit5 : ∀ n, n < 256 → (n &&& 0x20) >>> 5 = n / 32 % 2 := by decide

theorem byte_low5 : ∀ n, n < 256 → n &&& 0x1F = n % 32 := by decide

theorem byte_top2 : ∀ n, n < 256 → (n &&& 0xC0) >>> 6 = n / 64 % 4 := by decide

theorem byte_bits54 : ∀ n, n < 256 → (n &&& 0x30) >>> 4 = n / 16 % 4 := by decide

theorem byte_low4 : ∀ n, n < 256 → n &&& 0x0F = n % 16 := by decide

/-- C6: For every input whose first byte is the sync constant `0x47`,
`xTS_PacketHeader::Parse` returns 4 and populates: error indicator = bit 7 of
byte 1, unit-start indicator = bit 6 of byte 1, priority = bit 5 of byte 1,
13-bit identifier = low 5 bits of byte 1 concatenated with byte 2, scrambling
control = bits 7–6 of byte 3, adaptation-field-control = bits 5–4 of byte 3,
continuity counter = low 4 bits of byte 3. -/
theorem c6_header_fields (h : xTS_PacketHeader) (f : Nat → Nat)
    (h0 : f 0 = 0x47) (h1 : f 1 < 256) (h2 : f 2 < 256) (h3 : f 3 < 256) :
    (h.Parse f).2 = 4 ∧
    (h.Parse f).1.m_E = f 1 / 128 % 2 ∧
    (h.Parse f).1.m_S = f 1 / 64 % 2 ∧
    (h.Parse f).1.m_T = f 1 / 32 % 2 ∧
    (h.Parse f).1.m_PID = (f 1 % 32) * 256 + f 2 ∧
    (h.Parse f).1.m_TSC = f 3 / 64 % 4 ∧
    (h.Parse f).1.m_AFC = f 3 / 16 % 4 ∧
    (h.Parse f).1.m_CC = f 3 % 16 := by
  have hpid : ((f 1 &&& 0x1F) <<< 8) ||| f 2 = (f 1 % 32) * 256 + f 2 := by
    rw [lor_shift _ _ 8 (by omega), byte_low5 _ h1]
    norm_num
  simp only [xTS_PacketHeader.Parse, h0, xTS.TS_HeaderLength]
  norm_num [byte_bit7 _ h1, byte_bit6 _ h1, byte_bit5 _ h1, hpid,
    byte_top2 _ h3, byte_bits54 _ h3, byte_low4 _ h3]

/-- C6 witness: concrete packet bytes `47 5F A2 73`. -/
theorem c6_header_fields_witness :
    let f : Nat → Nat := fun i => [0x47, 0x5F, 0xA2, 0x73].getD i 0
    ((xTS_PacketHeader.Reset default).Parse f).2 = 4 ∧
    ((xTS_PacketHeader.Reset default).Parse f).1.m_PID = (0x5F % 32) * 256 + 0xA2 := by
  intro f
  have h := c6_header_fields (xTS_PacketHeader.Reset default) f (by decide)
    (by decide) (by decide) (by decide)
  exact ⟨h.1, by rw [h.2.2.2.2.1]; rfl⟩

/-- C8: For every input whose first byte differs from the sync constant `0x47`,
`xTS_PacketHeader::Parse` after `Reset` fails with a negative result
(`NOT_VALID`) and leaves the error indicator, unit-start indicator, priority,
identifier, scrambling control, adaptation-field-control and continuity
counter in their reset zero state. -/
theorem c8_bad_sync (h : xTS_PacketHeader) (f : Nat → Nat)
    (h0 : f 0 < 256) (hne : f 0 ≠ 0x47) :
    ((h.Reset).Parse f).2 = NOT_VALID ∧ NOT_VALID < 0 ∧
    ((h.Reset).Parse f).1.m_E = 0 ∧
    ((h.Reset).Parse f).1.m_S = 0 ∧
    ((h.Reset).Parse f).1.m_T = 0 ∧
    ((h.Reset).Parse f).1.m_PID = 0 ∧
    ((h.Reset).Parse f).1.m_TSC = 0 ∧
    ((h.Reset).Parse f).1.m_AFC = 0 ∧
    ((h.Reset).Parse f).1.m_CC = 0 := by
  simp only [xTS_PacketHeader.Parse, xTS_PacketHeader.Reset]
  simp [hne, NOT_VALID]

/-- C8 witness: the byte `0x48` in front. -/
theorem c8_bad_sync_witness :
    ((xTS_PacketHeader.Reset default).Parse (fun _ => 0x48)).2 = NOT_VALID := by
  exact (c8_bad_sync default (fun _ => 0x48) (by decide) (by decide)).1

/-- The fields of `class xTS_AdaptationField`.  `m_Buffer` is the stored
pointer to the caller's buffer (null before the first `Parse`). -/
structure xTS_AdaptationField where
  m_AFC : Nat
  m_Len : Nat
  m_DC : Nat
  m_RA : Nat
  m_SP : Nat
  m_PR : Nat
  m_OR : Nat
  m_SF : Nat
  m_TP : Nat
  m_EX : Nat
  m_PCR_base : Nat
  m_PCR_extension : Nat
  m_OPCR_base : Nat
  m_OPCR_extension : Nat
  m_PrivateDataLength : Nat
  m_ExtensionLength : Nat
  m_SplicingPointOffset : Nat
  m_Buffer : Option (Nat → Nat)

namespace xTS_AdaptationField

/-- `xTS_AdaptationField::Reset`: clears control, length, flags and the
PCR/OPCR components (the source's `Reset` does not touch the stored buffer
pointer nor the private-data/extension/splice members). -/
def Reset (a : xTS_AdaptationField) : xTS_AdaptationField :=
  { a with
    m_AFC := 0, m_Len := 0,
    m_DC := 0, m_RA := 0, m_SP := 0, m_PR := 0,
    m_OR := 0, m_SF := 0, m_TP := 0, m_EX := 0,
    m_PCR_base := 0, m_PCR_extension := 0,
    m_OPCR_base := 0, m_OPCR_extension := 0 }

/-- The PCR sub-field step of the `Parse` offset walk (source lines
"Parse Program Clock Reference"): consumed only when the PCR flag is set
and `m_Len >= currentOffset + 6`. -/
def pcrStep (a : xTS_AdaptationField) (PacketBuffer : Nat → Nat)
    (currentOffset : Nat) : xTS_AdaptationField × Nat :=
  if a.m_PR ≠ 0 ∧ a.m_Len ≥ currentOffset + 6 then
    ({ a with
        m_PCR_base :=
          (PacketBuffer currentOffset <<< 25) |||
          (PacketBuffer (currentOffset + 1) <<< 17) |||
          (PacketBuffer (currentOffset + 2) <<< 9) |||
          (PacketBuffer (currentOffset + 3) <<< 1) |||
          (PacketBuffer (currentOffset + 4) >>> 7)
        m_PCR_extension :=
          ((PacketBuffer (currentOffset + 4) &&& 0x01) <<< 8) |||
          PacketBuffer (currentOffset + 5) },
      currentOffset + 6)
  else (a, currentOffset)

/-- The OPCR sub-field step of the `Parse` offset walk. -/
def opcrStep (a : xTS_AdaptationField) (PacketBuffer : Nat → Nat)
    (currentOffset : Nat) : xTS_AdaptationField × Nat :=
  if a.m_OR ≠ 0 ∧ a.m_Len ≥ currentOffset + 6 then
    ({ a with
        m_OPCR_base :=
          (PacketBuffer currentOffset <<< 25) |||
          (PacketBuffer (currentOffset + 1) <<< 17) |||
          (PacketBuffer (currentOffset + 2) <<< 9) |||
          (PacketBuffer (currentOffset + 3) <<< 1) |||
          (PacketBuffer (currentOffset + 4) >>> 7)
        m_OPCR_extension :=
          ((PacketBuffer (currentOffset + 4) &&& 0x01) <<< 8) |||
          PacketBuffer (currentOffset + 5) },
      currentOffset + 6)
  else (a, currentOffset)

/-- The splice-countdown step of the `Parse` offset walk. -/
def spliceStep (a : xTS_AdaptationField) (PacketBuffer : Nat → Nat)
    (currentOffset : Nat) : xTS_AdaptationField × Nat :=
  if a.m_SF ≠ 0 ∧ a.m_Len ≥ currentOffset + 1 then
    ({ a with m_SplicingPointOffset := PacketBuffer currentOffset }, currentOffset + 1)
  else (a, currentOffset)

/-- The transport-private-data step of the `Parse` offset walk: reads the
length byte, then skips the data only if it fits within `m_Len`. -/
def privateStep (a : xTS_AdaptationField) (PacketBuffer : Nat → Nat)
    (currentOffset : Nat) : xTS_AdaptationField × Nat :=
  if a.m_TP ≠ 0 ∧ a.m_Len ≥ currentOffset + 1 then
    let a4 := { a with m_PrivateDataLength := PacketBuffer currentOffset }
    if a4.m_Len ≥ (currentOffset + 1) + a4.m_PrivateDataLength then
      (a4, (currentOffset + 1) + a4.m_PrivateDataLength)
    else (a4, currentOffset + 1)
  else (a, currentOffset)

/-- The extension step of the `Parse` offset walk. -/
def extStep (a : xTS_AdaptationField) (PacketBuffer : Nat → Nat)
    (currentOffset : Nat) : xTS_AdaptationField :=
  if a.m_EX ≠ 0 ∧ a.m_Len ≥ currentOffset + 1 then
    { a with m_ExtensionLength := PacketBuffer currentOffset }
  else a

/-- The whole optional sub-field walk of `xTS_AdaptationField::Parse`: the
running `currentOffset` starts at 2 (after the flags byte). -/
def parseSubfields (a : xTS_AdaptationField) (PacketBuffer : Nat → Nat) :
    xTS_AdaptationField :=
  let s1 := pcrStep a PacketBuffer 2
  let s2 := opcrStep s1.1 PacketBuffer s1.2
  let s3 := spliceStep s2.1 PacketBuffer s2.2
  let s4 := privateStep s3.1 PacketBuffer s3.2
  extStep s4.1 PacketBuffer s4.2

/-- `xTS_AdaptationField::Parse`: stores the buffer pointer and the AFC value;
with no adaptation field (AFC not 2/3) sets length 0 and returns 0; checks the
control-dependent length bound; parses the flags byte and then walks a running
offset over the optional PCR, OPCR, splice-countdown, private-data and
extension sub-fields (`parseSubfields`), each consumed only when it fits
inside `m_Len`; finally returns `m_Len + 1`. -/
def Parse (a0 : xTS_AdaptationField) (PacketBuffer : Nat → Nat)
    (AdaptationFieldControl : Nat) : xTS_AdaptationField × Int :=
  let a := { a0 with m_Buffer := some PacketBuffer, m_AFC := AdaptationFieldControl }
  if a.m_AFC ≠ 2 ∧ a.m_AFC ≠ 3 then
    ({ a with m_Len := 0 }, 0)
  else
    let a := { a with m_Len := PacketBuffer 0 }
    if (a.m_Len > 183 ∧ a.m_AFC = 3) ∨ (a.m_Len > 184 ∧ a.m_AFC = 2) then
      (a, NOT_VALID)
    else
      let a := { a with m_PrivateDataLength := 0, m_ExtensionLength := 0,
                        m_SplicingPointOffset := 0 }
      if a.m_Len ≥ 1 then
        let a := { a with
          m_DC := (PacketBuffer 1 &&& 0x80) >>> 7
          m_RA := (PacketBuffer 1 &&& 0x40) >>> 6
          m_SP := (PacketBuffer 1 &&& 0x20) >>> 5
          m_PR := (PacketBuffer 1 &&& 0x10) >>> 4
          m_OR := (PacketBuffer 1 &&& 0x08) >>> 3
          m_SF := (PacketBuffer 1 &&& 0x04) >>> 2
          m_TP := (PacketBuffer 1 &&& 0x02) >>> 1
          m_EX := PacketBuffer 1 &&& 0x01 }
        let a := parseSubfields a PacketBuffer
        (a, (a.m_Len : Int) + 1)
      else
        (a, (a.m_Len : Int) + 1)

/-- `xTS_AdaptationField::getAdaptationFieldLength`. -/
def getAdaptationFieldLength (a : xTS_AdaptationField) : Nat := a.m_Len

/-- `xTS_AdaptationField::getPCR`: `m_PCR_base * 300 + m_PCR_extension`. -/
def getPCR (a : xTS_AdaptationField) : Nat := a.m_PCR_base * 300 + a.m_PCR_extension

/-- `xTS_AdaptationField::getOPCR`: `m_OPCR_base * 300 + m_OPCR_extension`. -/
def getOPCR (a : xTS_AdaptationField) : Nat := a.m_OPCR_base * 300 + a.m_OPCR_extension

/-- `xTS_AdaptationField::getStuffingBytes`: recomputes, from the flags and
the retained buffer view, how many bytes the flags byte and the present
sub-fields occupy, and returns `m_Len - usedBytes` clamped at 0. -/
def getStuffingBytes (a : xTS_AdaptationField) : Int :=
  if (a.m_AFC ≠ 2 ∧ a.m_AFC ≠ 3) ∨ a.m_Len = 0 then 0
  else
    let usedBytes : Int := 1
    let usedBytes := if a.m_PR ≠ 0 then usedBytes + 6 else usedBytes
    let usedBytes := if a.m_OR ≠ 0 then usedBytes + 6 else usedBytes
    let usedBytes := if a.m_SF ≠ 0 then usedBytes + 1 else usedBytes
    let usedBytes :=
      match a.m_Buffer with
      | some buf =>
        if a.m_TP ≠ 0 then
          let privateDataOffset := 2 + (if a.m_PR ≠ 0 then 6 else 0) +
            (if a.m_OR ≠ 0 then 6 else 0) + (if a.m_SF ≠ 0 then 1 else 0)
          if a.m_Len ≥ privateDataOffset then
            usedBytes + 1 + (buf privateDataOffset : Int)
          else usedBytes
        else usedBytes
      | none => usedBytes
    let usedBytes :=
      match a.m_Buffer with
      | some buf =>
        if a.m_EX ≠ 0 then
          let extensionOffset := 2 + (if a.m_PR ≠ 0 then 6 else 0) +
            (if a.m_OR ≠ 0 then 6 else 0) + (if a.m_SF ≠ 0 then 1 else 0) +
            (if a.m_TP ≠ 0 then 1 + a.m_PrivateDataLength else 0)
          if a.m_Len ≥ extensionOffset then
            usedBytes + 1 + (buf extensionOffset : Int)
          else usedBytes
        else usedBytes
      | none => usedBytes
    let stuffingBytes : Int := (a.m_Len : Int) - usedBytes
    if stuffingBytes > 0 then stuffingBytes else 0

end xTS_AdaptationField

/-- An all-zero adaptation-field object with no stored buffer, standing for a
freshly reset instance before any `Parse`. -/
def AF0 : xTS_AdaptationField :=
  { m_AFC := 0, m_Len := 0, m_DC := 0, m_RA := 0, m_SP := 0, m_PR := 0,
    m_OR := 0, m_SF := 0, m_TP := 0, m_EX := 0,
    m_PCR_base := 0, m_PCR_extension := 0, m_OPCR_base := 0, m_OPCR_extension := 0,
    m_PrivateDataLength := 0, m_ExtensionLength := 0, m_SplicingPointOffset := 0,
    m_Buffer := none }

theorem pcrStep_m_Len (a : xTS_AdaptationField) (f : Nat → Nat) (o : Nat) :
    (xTS_AdaptationField.pcrStep a f o).1.m_Len = a.m_Len := by
  unfold xTS_AdaptationField.pcrStep; split <;> rfl

theorem opcrStep_m_Len (a : xTS_AdaptationField) (f : Nat → Nat) (o : Nat) :
    (xTS_AdaptationField.opcrStep a f o).1.m_Len = a.m_Len := by
  unfold xTS_AdaptationField.opcrStep; split <;> rfl

theorem spliceStep_m_Len (a : xTS_AdaptationField) (f : Nat → Nat) (o : Nat) :
    (xTS_AdaptationField.spliceStep a f o).1.m_Len = a.m_Len := by
  unfold xTS_AdaptationField.spliceStep; split <;> rfl

theorem privateStep_m_Len (a : xTS_AdaptationField) (f : Nat → Nat) (o : Nat) :
    (xTS_AdaptationField.privateStep a f o).1.m_Len = a.m_Len := by
  simp only [xTS_AdaptationField.privateStep]
  split_ifs <;> rfl

theorem extStep_m_Len (a : xTS_AdaptationField) (f : Nat → Nat) (o : Nat) :
    (xTS_AdaptationField.extStep a f o).m_Len = a.m_Len := by
  unfold xTS_AdaptationField.extStep; split <;> rfl

theorem parseSubfields_m_Len (a : xTS_AdaptationField) (f : Nat → Nat) :
    (xTS_AdaptationField.parseSubfields a f).m_Len = a.m_Len := by
  simp only [xTS_AdaptationField.parseSubfields]
  rw [extStep_m_Len, privateStep_m_Len, spliceStep_m_Len, opcrStep_m_Len, pcrStep_m_Len]

theorem opcrStep_PCR (a : xTS_AdaptationField) (f : Nat → Nat) (o : Nat) :
    (xTS_AdaptationField.opcrStep a f o).1.m_PCR_base = a.m_PCR_base ∧
    (xTS_AdaptationField.opcrStep a f o).1.m_PCR_extension = a.m_PCR_extension := by
  unfold xTS_AdaptationField.opcrStep; split <;> exact ⟨rfl, rfl⟩

theorem spliceStep_PCR (a : xTS_AdaptationField) (f : Nat → Nat) (o : Nat) :
    (xTS_AdaptationField.spliceStep a f o).1.m_PCR_base = a.m_PCR_base ∧
    (xTS_AdaptationField.spliceStep a f o).1.m_PCR_extension = a.m_PCR_extension := by
  unfold xTS_AdaptationField.spliceStep; split <;> exact ⟨rfl, rfl⟩

theorem privateStep_PCR (a : xTS_AdaptationField) (f : Nat → Nat) (o : Nat) :
    (xTS_AdaptationField.privateStep a f o).1.m_PCR_base = a.m_PCR_base ∧
    (xTS_AdaptationField.privateStep a f o).1.m_PCR_extension = a.m_PCR_extension := by
  simp only [xTS_AdaptationField.privateStep]
  split_ifs <;> exact ⟨rfl, rfl⟩

theorem extStep_PCR (a : xTS_AdaptationField) (f : Nat → Nat) (o : Nat) :
    (xTS_AdaptationField.extStep a f o).m_PCR_base = a.m_PCR_base ∧
    (xTS_AdaptationField.extStep a f o).m_PCR_extension = a.m_PCR_extension := by
  unfold xTS_AdaptationField.extStep; split <;> exact ⟨rfl, rfl⟩

theorem parseSubfields_PCR_skip (a : xTS_AdaptationField) (f : Nat → Nat)
    (h : a.m_Len < 8) :
    (xTS_AdaptationField.parseSubfields a f).m_PCR_base = a.m_PCR_base ∧
    (xTS_AdaptationField.parseSubfields a f).m_PCR_extension = a.m_PCR_extension := by
  have h1 : xTS_AdaptationField.pcrStep a f 2 = (a, 2) := by
    unfold xTS_AdaptationField.pcrStep
    rw [if_neg (by rintro ⟨-, hge⟩; omega)]
  simp only [xTS_AdaptationField.parseSubfields, h1]
  constructor
  · rw [(extStep_PCR _ f _).1, (privateStep_PCR _ f _).1, (spliceStep_PCR _ f _).1,
      (opcrStep_PCR _ f _).1]
  · rw [(extStep_PCR _ f _).2, (privateStep_PCR _ f _).2, (spliceStep_PCR _ f _).2,
      (opcrStep_PCR _ f _).2]

/-- The `Parse` result when no adaptation field is present (AFC 0 or 1). -/
theorem AF_Parse_noAF (a : xTS_AdaptationField) (f : Nat → Nat) (ctrl : Nat)
    (h2 : ctrl ≠ 2) (h3 : ctrl ≠ 3) :
    xTS_AdaptationField.Parse a f ctrl
      = ({ a with m_Buffer := some f, m_AFC := ctrl, m_Len := 0 }, 0) := by
  simp [xTS_AdaptationField.Parse, h2, h3]

/-- The `Parse` result on an out-of-bound length byte. -/
theorem AF_Parse_badlen (a : xTS_AdaptationField) (f : Nat → Nat) (ctrl : Nat)
    (h : (f 0 > 183 ∧ ctrl = 3) ∨ (f 0 > 184 ∧ ctrl = 2)) :
    (xTS_AdaptationField.Parse a f ctrl).2 = NOT_VALID := by
  rcases h with ⟨hgt, rfl⟩ | ⟨hgt, rfl⟩ <;>
    simp [xTS_AdaptationField.Parse, hgt]

/-- The `Parse` return value and stored length on every in-bound input. -/
theorem AF_Parse_success (a : xTS_AdaptationField) (f : Nat → Nat) (ctrl : Nat)
    (h : (ctrl = 2 ∧ f 0 ≤ 184) ∨ (ctrl = 3 ∧ f 0 ≤ 183)) :
    (xTS_AdaptationField.Parse a f ctrl).2 = (f 0 : Int) + 1 ∧
    (xTS_AdaptationField.Parse a f ctrl).1.m_Len = f 0 := by
  rcases h with ⟨rfl, hle⟩ | ⟨rfl, hle⟩ <;>
    · simp only [xTS_AdaptationField.Parse]
      rw [if_neg (by omega), if_neg (by omega)]
      by_cases hlen : f 0 ≥ 1
      · rw [if_pos hlen]
        simp [parseSubfields_m_Len]
      · rw [if_neg hlen]
        simp

/-- `Parse` on an in-bound length leaves the PCR members unchanged whenever
the length byte is below 8 (the source requires `m_Len >= 2 + 6` to consume
the PCR). -/
theorem AF_Parse_PCR_unchanged (a : xTS_AdaptationField) (f : Nat → Nat) (ctrl : Nat)
    (h : (ctrl = 2 ∧ f 0 ≤ 184) ∨ (ctrl = 3 ∧ f 0 ≤ 183)) (hlen : f 0 < 8) :
    (xTS_AdaptationField.Parse a f ctrl).1.m_PCR_base = a.m_PCR_base ∧
    (xTS_AdaptationField.Parse a f ctrl).1.m_PCR_extension = a.m_PCR_extension := by
  rcases h with ⟨rfl, hle⟩ | ⟨rfl, hle⟩ <;>
    · simp only [xTS_AdaptationField.Parse]
      rw [if_neg (by omega), if_neg (by omega)]
      by_cases h1 : f 0 ≥ 1
      · rw [if_pos h1]
        exact parseSubfields_PCR_skip _ f (by simpa using hlen)
      · rw [if_neg h1]
        exact ⟨rfl, rfl⟩

/-- C7: For every buffer: with adaptation-field-control 0 (reserved) or 1
(payload-only), `xTS_AdaptationField::Parse` sets the length to 0 and returns
0 without error; with control 3 and a length byte above 183, or control 2 and
a length byte above 184, it fails with the negative `NOT_VALID`
(`InvalidLength`); otherwise it returns `length + 1`, covering the length
byte itself. -/
theorem c7_af_parse_cases (a : xTS_AdaptationField) (f : Nat → Nat) (ctrl : Nat) :
    ((ctrl = 0 ∨ ctrl = 1) →
      (xTS_AdaptationField.Parse a f ctrl).2 = 0 ∧
      (xTS_AdaptationField.Parse a f ctrl).1.m_Len = 0) ∧
    (ctrl = 3 → f 0 > 183 →
      (xTS_AdaptationField.Parse a f ctrl).2 = NOT_VALID ∧ NOT_VALID < 0) ∧
    (ctrl = 2 → f 0 > 184 →
      (xTS_AdaptationField.Parse a f ctrl).2 = NOT_VALID ∧ NOT_VALID < 0) ∧
    (ctrl = 3 → f 0 ≤ 183 →
      (xTS_AdaptationField.Parse a f ctrl).2 = (f 0 : Int) + 1) ∧
    (ctrl = 2 → f 0 ≤ 184 →
      (xTS_AdaptationField.Parse a f ctrl).2 = (f 0 : Int) + 1) := by
  refine ⟨?_, ?_, ?_, ?_, ?_⟩
  · rintro (rfl | rfl) <;>
      · rw [AF_Parse_noAF a f _ (by omega) (by omega)]
        exact ⟨rfl, rfl⟩
  · rintro rfl hgt
    exact ⟨AF_Parse_badlen a f 3 (Or.inl ⟨hgt, rfl⟩), by norm_num [NOT_VALID]⟩
  · rintro rfl hgt
    exact ⟨AF_Parse_badlen a f 2 (Or.inr ⟨hgt, rfl⟩), by norm_num [NOT_VALID]⟩
  · rintro rfl hle
    exact (AF_Parse_success a f 3 (Or.inr ⟨rfl, hle⟩)).1
  · rintro rfl hle
    exact (AF_Parse_success a f 2 (Or.inl ⟨rfl, hle⟩)).1

/-- C7 witness: control 1 (no field), control 3 with length byte 200
(rejected), control 3 with length byte 7 (accepted, returns 8). -/
theorem c7_af_parse_cases_witness :
    (xTS_AdaptationField.Parse AF0 (fun _ => 0) 1).2 = 0 ∧
    (xTS_AdaptationField.Parse AF0 (fun _ => 200) 3).2 = NOT_VALID ∧
    (xTS_AdaptationField.Parse AF0 (fun _ => 7) 3).2 = 8 := by
  refine ⟨((c7_af_parse_cases AF0 (fun _ => 0) 1).1 (Or.inr rfl)).1,
    ((c7_af_parse_cases AF0 (fun _ => 200) 3).2.1 rfl (by norm_num)).1, ?_⟩
  have h := (c7_af_parse_cases AF0 (fun _ => 7) 3).2.2.2.1 rfl (by norm_num)
  rw [h]; norm_num

/-- C9: For every buffer with adaptation-field-control 2 or 3 whose length
byte is within the control-dependent bound, `xTS_AdaptationField::Parse`
succeeds with `length + 1` regardless of the flags byte — the consistency of
the flag-implied sub-field sizes against the declared length is never
validated — and a sub-field that does not fit is silently skipped: with a
length byte below 8 the PCR members are left untouched even when the PCR flag
is set. -/
theorem c9_flags_never_validated (a : xTS_AdaptationField) (f : Nat → Nat) (ctrl : Nat)
    (h : (ctrl = 2 ∧ f 0 ≤ 184) ∨ (ctrl = 3 ∧ f 0 ≤ 183)) :
    (xTS_AdaptationField.Parse a f ctrl).2 = (f 0 : Int) + 1 ∧
    0 ≤ (xTS_AdaptationField.Parse a f ctrl).2 ∧
    (f 0 < 8 →
      (xTS_AdaptationField.Parse a f ctrl).1.m_PCR_base = a.m_PCR_base ∧
      (xTS_AdaptationField.Parse a f ctrl).1.m_PCR_extension = a.m_PCR_extension) := by
  have hs := AF_Parse_success a f ctrl h
  refine ⟨hs.1, by rw [hs.1]; positivity, fun hlen => AF_Parse_PCR_unchanged a f ctrl h hlen⟩

/-- C9 witness: control 3, length byte 7, all eight flags set — the
flag-implied sizes vastly exceed the length, yet `Parse` returns 8. -/
theorem c9_flags_never_validated_witness :
    (xTS_AdaptationField.Parse AF0 (fun i => if i = 0 then 7 else 0xFF) 3).2 = 8 ∧
    (xTS_AdaptationField.Parse AF0 (fun i => if i = 0 then 7 else 0xFF) 3).1.m_PCR_base = 0 := by
  have h := c9_flags_never_validated AF0 (fun i => if i = 0 then 7 else 0xFF) 3
    (Or.inr ⟨rfl, by norm_num⟩)
  exact ⟨by rw [h.1]; norm_num, by rw [(h.2.2 (by norm_num)).1]; rfl⟩

/-- The adaptation-field bytes of C1's scenario: length byte 7, flags byte
`0x10` (PCR flag only), then the 6 PCR bytes encoding base 1, extension 1. -/
def c1buf : Nat → Nat := fun i => [7, 0x10, 0, 0, 0, 0, 0x80, 1].getD i 0

/-- C1 (code bug): on an adaptation field with control 3, length byte 7 and
flags byte `0x10` followed by 6 PCR bytes encoding base 1 and extension 1,
`Parse` accepts the field (returns 8), records the PCR flag, and
`getStuffingBytes()` is 0 as the claim states — but the PCR is *not* decoded:
the source gates the PCR on `m_Len >= currentOffset + 6` with `currentOffset
= 2`, i.e. demands length at least 8 although flags byte plus PCR occupy
exactly 7 bytes, so `getPCR()` stays 0 instead of the claimed
`1 * 300 + 1 = 301`. -/
theorem c1_pcr_dropped_at_length7 :
    ((xTS_AdaptationField.Reset AF0).Parse c1buf 3).2 = 8 ∧
    ((xTS_AdaptationField.Reset AF0).Parse c1buf 3).1.m_PR = 1 ∧
    ((xTS_AdaptationField.Reset AF0).Parse c1buf 3).1.getStuffingBytes = 0 ∧
    ((xTS_AdaptationField.Reset AF0).Parse c1buf 3).1.getPCR = 0 := by
  refine ⟨rfl, rfl, rfl, rfl⟩

/-- The same scenario with length byte 8 (one stuffing byte appended): the
PCR then *is* decoded to `1 * 300 + 1 = 301`, pinpointing the off-by-one. -/
def c1buf8 : Nat → Nat := fun i => [8, 0x10, 0, 0, 0, 0, 0x80, 1, 0xFF].getD i 0

theorem c1_pcr_decoded_at_length8 :
    ((xTS_AdaptationField.Reset AF0).Parse c1buf8 3).2 = 9 ∧
    ((xTS_AdaptationField.Reset AF0).Parse c1buf8 3).1.getPCR = 301 := by
  refine ⟨rfl, rfl⟩

theorem byte_pts_hi : ∀ n, n < 256 → (n &&& 0x0E) >>> 1 = n / 2 % 8 := by decide

theorem byte_7bits : ∀ n, n < 256 → (n &&& 0xFE) >>> 1 = n / 2 := by decide

/-- Recombination of a 33-bit timestamp from its five bit groups equals the
plain positional sum. -/
theorem ts33 (a b c d e : Nat) (hb : b < 256) (hc : c < 128) (hd : d < 256)
    (he : e < 128) :
    (a <<< 30) ||| (b <<< 22) ||| (c <<< 15) ||| (d <<< 7) ||| e
      = a * 2 ^ 30 + b * 2 ^ 22 + c * 2 ^ 15 + d * 2 ^ 7 + e := by
  rw [Nat.or_assoc, Nat.or_assoc, Nat.or_assoc]
  rw [lor_shift d e 7 (by omega)]
  rw [lor_shift c (d * 2 ^ 7 + e) 15 (by omega)]
  rw [lor_shift b _ 22 (by norm_num; omega)]
  rw [lor_shift a _ 30 (by norm_num; omega)]
  ring

/-- The fields of `class xPES_PacketHeader`. -/
structure xPES_PacketHeader where
  m_PacketStartCodePrefix : Nat
  m_StreamId : Nat
  m_PacketLength : Nat
  m_HeaderMarkerBits : Nat
  m_PES_scrambling_control : Nat
  m_PES_priority : Nat
  m_data_alignment_indicator : Nat
  m_copyright : Nat
  m_original_or_copy : Nat
  m_PTS_DTS_flags : Nat
  m_ESCR_flag : Nat
  m_ES_rate_flag : Nat
  m_DSM_trick_mode_flag : Nat
  m_additional_copy_info_flag : Nat
  m_PES_CRC_flag : Nat
  m_PES_extension_flag : Nat
  m_PES_header_data_length : Nat
  m_PTS : Nat
  m_DTS : Nat
  m_hasHeaderExtension : Bool
  m_headerLength : Int
deriving Inhabited

namespace xPES_PacketHeader

/-- `xPES_PacketHeader::Reset`: all fields zero, no extension, header
length 6. -/
def Reset (_p : xPES_PacketHeader) : xPES_PacketHeader :=
  { m_PacketStartCodePrefix := 0, m_StreamId := 0, m_PacketLength := 0,
    m_HeaderMarkerBits := 0, m_PES_scrambling_control := 0, m_PES_priority := 0,
    m_data_alignment_indicator := 0, m_copyright := 0, m_original_or_copy := 0,
    m_PTS_DTS_flags := 0, m_ESCR_flag := 0, m_ES_rate_flag := 0,
    m_DSM_trick_mode_flag := 0, m_additional_copy_info_flag := 0,
    m_PES_CRC_flag := 0, m_PES_extension_flag := 0, m_PES_header_data_length := 0,
    m_PTS := 0, m_DTS := 0, m_hasHeaderExtension := false,
    m_headerLength := (xTS.PES_HeaderLength : Int) }

/-- The 5-byte 33-bit timestamp decoding used for both PTS and DTS
(source: `pts_32_30 << 30 | pts_29_22 << 22 | pts_21_15 << 15 |
pts_14_7 << 7 | pts_6_0`). -/
def decodeTS (Input : Nat → Nat) (offset : Nat) : Nat :=
  (((Input offset &&& 0x0E) >>> 1) <<< 30) |||
  ((Input (offset + 1)) <<< 22) |||
  (((Input (offset + 2) &&& 0xFE) >>> 1) <<< 15) |||
  ((Input (offset + 3)) <<< 7) |||
  ((Input (offset + 4) &&& 0xFE) >>> 1)

/-- The 14 extended-header fields read from the two flag bytes and the
header-data-length byte (bytes 6-8). -/
def parseExtFlags (p : xPES_PacketHeader) (Input : Nat → Nat) : xPES_PacketHeader :=
  { p with
    m_HeaderMarkerBits := (Input 6 &&& 0xC0) >>> 6
    m_PES_scrambling_control := (Input 6 &&& 0x30) >>> 4
    m_PES_priority := (Input 6 &&& 0x08) >>> 3
    m_data_alignment_indicator := (Input 6 &&& 0x04) >>> 2
    m_copyright := (Input 6 &&& 0x02) >>> 1
    m_original_or_copy := Input 6 &&& 0x01
    m_PTS_DTS_flags := (Input 7 &&& 0xC0) >>> 6
    m_ESCR_flag := (Input 7 &&& 0x20) >>> 5
    m_ES_rate_flag := (Input 7 &&& 0x10) >>> 4
    m_DSM_trick_mode_flag := (Input 7 &&& 0x08) >>> 3
    m_additional_copy_info_flag := (Input 7 &&& 0x04) >>> 2
    m_PES_CRC_flag := (Input 7 &&& 0x02) >>> 1
    m_PES_extension_flag := Input 7 &&& 0x01
    m_PES_header_data_length := Input 8 }

/-- The optional PTS and DTS reads: PTS from offset 9 when the PTS bit of
the PTS/DTS flags is set (advancing the offset by 5), DTS from the
following 5 bytes when the flags equal `0b11`. -/
def parseTimestamps (p : xPES_PacketHeader) (Input : Nat → Nat) : xPES_PacketHeader :=
  let p1 := if p.m_PTS_DTS_flags &&& 0x2 ≠ 0 then
    { p with m_PTS := decodeTS Input 9 } else p
  let offset := if p1.m_PTS_DTS_flags &&& 0x2 ≠ 0 then 9 + 5 else 9
  if p1.m_PTS_DTS_flags = 0x3 then
    { p1 with m_DTS := decodeTS Input offset } else p1

/-- The extended-header branch of `Parse` (stream ids in the audio/video
ranges): flag bytes, recomputed header length, optional PTS/DTS. -/
def parseExtension (p0 : xPES_PacketHeader) (Input : Nat → Nat) :
    xPES_PacketHeader × Int :=
  let p := { p0 with m_hasHeaderExtension := true }
  if p.m_PacketLength < 3 then (p, p.m_headerLength)
  else
    let p := parseExtFlags p Input
    let p := { p with m_headerLength := (xTS.PES_HeaderLength : Int) + 3 +
      (p.m_PES_header_data_length : Int) }
    let p := parseTimestamps p Input
    (p, p.m_headerLength)

/-- `xPES_PacketHeader::Parse`: validates the 24-bit start-code prefix,
reads stream id and 16-bit packet length, and — for stream ids that are not
one of the eight special ids and lie in the audio (0xC0-0xDF) or video
(0xE0-0xEF) range — parses the extended header (`parseExtension`). -/
def Parse (p0 : xPES_PacketHeader) (Input : Nat → Nat) : xPES_PacketHeader × Int :=
  let p := { p0 with
    m_PacketStartCodePrefix := (Input 0 <<< 16) ||| (Input 1 <<< 8) ||| Input 2 }
  if p.m_PacketStartCodePrefix ≠ 0x000001 then (p, NOT_VALID)
  else
    let p := { p with
      m_StreamId := Input 3
      m_PacketLength := (Input 4 <<< 8) ||| Input 5
      m_headerLength := (xTS.PES_HeaderLength : Int) }
    if p.m_StreamId ≠ 0xBC ∧ p.m_StreamId ≠ 0xBE ∧ p.m_StreamId ≠ 0xBF ∧
       p.m_StreamId ≠ 0xF0 ∧ p.m_StreamId ≠ 0xF1 ∧ p.m_StreamId ≠ 0xFF ∧
       p.m_StreamId ≠ 0xF2 ∧ p.m_StreamId ≠ 0xF8 ∧
       ((0xC0 ≤ p.m_StreamId ∧ p.m_StreamId ≤ 0xDF) ∨
        (0xE0 ≤ p.m_StreamId ∧ p.m_StreamId ≤ 0xEF)) then
      parseExtension p Input
    else (p, p.m_headerLength)

/-- `xPES_PacketHeader::getPacketLength`. -/
def getPacketLength (p : xPES_PacketHeader) : Nat := p.m_PacketLength

/-- `xPES_PacketHeader::getPTS`. -/
def getPTS (p : xPES_PacketHeader) : Nat := p.m_PTS

/-- `xPES_PacketHeader::getDTS`. -/
def getDTS (p : xPES_PacketHeader) : Nat := p.m_DTS

end xPES_PacketHeader

/-- `decodeTS` equals the manually computed 33-bit integer
`(byte0 bits 3-1)*2^30 + byte1*2^22 + (byte2 bits 7-1)*2^15 + byte3*2^7 +
(byte4 bits 7-1)`. -/
theorem decodeTS_eq (f : Nat → Nat) (o : Nat) (hb : ∀ i, f i < 256) :
    xPES_PacketHeader.decodeTS f o
      = (f o / 2 % 8) * 2 ^ 30 + f (o + 1) * 2 ^ 22 + (f (o + 2) / 2) * 2 ^ 15 +
        f (o + 3) * 2 ^ 7 + f (o + 4) / 2 := by
  unfold xPES_PacketHeader.decodeTS
  rw [byte_pts_hi _ (hb o), byte_7bits _ (hb (o + 2)), byte_7bits _ (hb (o + 4))]
  exact ts33 _ _ _ _ _ (hb (o + 1)) (by have := hb (o + 2); omega)
    (hb (o + 3)) (by have := hb (o + 4); omega)

/-- C5: For every buffer of bytes starting `00 00 01`, with stream id `0xE0`
(video), packet length field at least 3, and PTS/DTS flags (bits 7–6 of byte
7) equal to `0b11`, `xPES_PacketHeader::Parse` decodes the 33-bit PTS from
the 5 bytes at offset 9 as `(byte0 bits 3-1)<<30 | byte1<<22 |
(byte2 bits 7-1)<<15 | byte3<<7 | (byte4 bits 7-1)`, and the 33-bit DTS
identically from the following 5 bytes (offset 14), both equal to the
manually computed 33-bit integers. -/
theorem c5_pts_dts (p : xPES_PacketHeader) (f : Nat → Nat) (hb : ∀ i, f i < 256)
    (h0 : f 0 = 0) (h1 : f 1 = 0) (h2 : f 2 = 1) (h3 : f 3 = 0xE0)
    (hlen : 3 ≤ f 4 * 256 + f 5) (hfl : f 7 / 64 = 3) :
    (p.Parse f).1.m_PTS
      = (f 9 / 2 % 8) * 2 ^ 30 + f 10 * 2 ^ 22 + (f 11 / 2) * 2 ^ 15 +
        f 12 * 2 ^ 7 + f 13 / 2 ∧
    (p.Parse f).1.m_DTS
      = (f 14 / 2 % 8) * 2 ^ 30 + f 15 * 2 ^ 22 + (f 16 / 2) * 2 ^ 15 +
        f 17 * 2 ^ 7 + f 18 / 2 := by
  have hsc : (f 0 <<< 16) ||| (f 1 <<< 8) ||| f 2 = 1 := by
    rw [h0, h1, h2]; decide
  have hpl : (f 4 <<< 8) ||| f 5 = f 4 * 256 + f 5 := by
    rw [lor_shift _ _ 8 (by have := hb 5; omega)]; norm_num
  have hfl2 : (f 7 &&& 0xC0) >>> 6 = 3 := by
    rw [byte_top2 _ (hb 7), hfl]
  have hnl : ¬(f 4 * 256 + f 5 < 3) := by omega
  have h32 : ((3 : Nat) &&& 2) = 2 := rfl
  simp only [xPES_PacketHeader.Parse, xPES_PacketHeader.parseExtension,
    xPES_PacketHeader.parseExtFlags, xPES_PacketHeader.parseTimestamps,
    hsc, h3, hpl, hfl2, hnl, h32]
  norm_num [h32, decodeTS_eq f 9 hb, decodeTS_eq f 14 hb]

/-- `List.getD` with in-bound elements and default below 256 stays below
256: used to discharge the byte-bound hypotheses on concrete buffers. -/
theorem getD_lt (l : List Nat) (hl : ∀ x ∈ l, x < 256) (i d : Nat) (hd : d < 256) :
    l.getD i d < 256 := by
  induction l generalizing i with
  | nil => simpa [List.getD] using hd
  | cons hd' tl ih =>
    cases i with
    | zero => simpa using hl hd' (by simp)
    | succ j =>
      simp only [List.getD_cons_succ]
      exact ih (fun x hx => hl x (by simp [hx])) j

/-- C5's concrete witness buffer: start code, video stream id `0xE0`, packet
length 10, flag bytes `0x80 0xC0` (PTS/DTS flags `0b11`), header data length
10, then the PTS bytes and the DTS bytes. -/
def c5buf : Nat → Nat := fun i =>
  [0, 0, 1, 0xE0, 0, 10, 0x80, 0xC0, 10,
   0x0B, 0x12, 0x35, 0x14, 0x57, 0x0D, 0x21, 0x43, 0x65, 0x87].getD i 0

/-- C5 witness: the buffer `c5buf` decodes PTS 5445061163 and DTS 6581957315. -/
theorem c5_pts_dts_witness :
    ((xPES_PacketHeader.Reset default).Parse c5buf).1.m_PTS = 5445061163 ∧
    ((xPES_PacketHeader.Reset default).Parse c5buf).1.m_DTS = 6581957315 := by
  have hb : ∀ i, c5buf i < 256 := fun i =>
    getD_lt _ (by decide) i 0 (by norm_num)
  have h := c5_pts_dts (xPES_PacketHeader.Reset default) c5buf hb
    (by decide) (by decide) (by decide) (by decide) (by decide) (by decide)
  exact ⟨by rw [h.1]; decide, by rw [h.2]; decide⟩

/-- `xPES_Assembler::eResult` (values as in `pesParse.h`). -/
inductive eResult where
  | UnexpectedPID
  | StreamPackedLost
  | AssemblingStarted
  | AssemblingContinue
  | AssemblingFinished
deriving Repr, DecidableEq

/-- The state of `class xPES_Assembler`.  The C++ pair of `m_Buffer` /
`m_DataOffset` (a heap array holding `m_DataOffset` valid bytes, with a
capacity that is not observable behavior) is embedded as the list of the
accumulated bytes, so `m_DataOffset = m_Buffer.length`. -/
structure xPES_Assembler where
  m_PID : Nat
  m_Buffer : List Nat
  m_LastContinuityCounter : Nat
  m_Started : Bool
  m_TotalStuffingBytes : Nat
  m_PESH : xPES_PacketHeader

namespace xPES_Assembler

/-- `xPES_Assembler::Init`: sets the target PID and clears all state
(constructor + `Init` + `xBufferReset` + `m_PESH.Reset`). -/
def Init (PID : Nat) : xPES_Assembler :=
  { m_PID := PID, m_Buffer := [], m_LastContinuityCounter := 0,
    m_Started := false, m_TotalStuffingBytes := 0,
    m_PESH := xPES_PacketHeader.Reset default }

/-- The `payloadSize` bytes of the transport packet starting at
`payloadOffset` (what `xBufferAppend(payload, payloadSize)` copies). -/
def payloadList (pkt : Nat → Nat) (off : Nat) : List Nat :=
  (List.range (xTS.TS_PacketLength - off)).map (fun i => pkt (off + i))

/-- The payload phase of `AbsorbPacket` (everything after the counter and
stuffing updates): the no-payload early return, and the PUSI / continuation
/ out-of-sync cases. -/
def absorbPayload (A2 : xPES_Assembler) (TransportStreamPacket : Nat → Nat)
    (PacketHeader : xTS_PacketHeader) (payloadOffset : Nat) :
    xPES_Assembler × eResult :=
  if payloadOffset ≥ xTS.TS_PacketLength ∨ PacketHeader.m_AFC = 0 ∨
      PacketHeader.m_AFC = 2 then
    (A2, if A2.m_Started then .AssemblingContinue else .StreamPackedLost)
  else
    let payloadSize := xTS.TS_PacketLength - payloadOffset
    if PacketHeader.m_S ≠ 0 then
      let A3 := { A2 with m_Started := true, m_Buffer := [],
                          m_PESH := A2.m_PESH.Reset }
      let pr := A3.m_PESH.Parse (fun i => TransportStreamPacket (payloadOffset + i))
      let A4 := { A3 with m_PESH := pr.1 }
      if pr.2 < 0 then ({ A4 with m_Started := false }, .UnexpectedPID)
      else
        let A5 := { A4 with
          m_Buffer := A4.m_Buffer ++ payloadList TransportStreamPacket payloadOffset }
        if A5.m_PESH.getPacketLength > 0 ∧
            6 + A5.m_PESH.getPacketLength ≤ payloadSize then
          (A5, .AssemblingFinished)
        else (A5, .AssemblingStarted)
    else if A2.m_Started = true then
      let A5 := { A2 with
        m_Buffer := A2.m_Buffer ++ payloadList TransportStreamPacket payloadOffset }
      if A5.m_PESH.getPacketLength > 0 ∧
          A5.m_Buffer.length ≥ 6 + A5.m_PESH.getPacketLength then
        (A5, .AssemblingFinished)
      else (A5, .AssemblingContinue)
    else (A2, .StreamPackedLost)

/-- `xPES_Assembler::AbsorbPacket`: PID filter; continuity-counter check
while a unit is in progress (expected counter unchanged for AFC 0/2, else
previous+1 mod 16, mismatch abandons the unit and returns
`StreamPackedLost`); counter update for payload-bearing packets (AFC 1/3);
stuffing-byte accumulation and payload offset from the adaptation field;
then `absorbPayload`. -/
def AbsorbPacket (A : xPES_Assembler) (TransportStreamPacket : Nat → Nat)
    (PacketHeader : xTS_PacketHeader) (AdaptationField : xTS_AdaptationField) :
    xPES_Assembler × eResult :=
  if PacketHeader.m_PID ≠ A.m_PID then (A, .UnexpectedPID)
  else if A.m_Started = true ∧
      PacketHeader.m_CC ≠ (if PacketHeader.m_AFC = 0 ∨ PacketHeader.m_AFC = 2
        then A.m_LastContinuityCounter
        else (A.m_LastContinuityCounter + 1) % 16) then
    ({ A with m_Started := false }, .StreamPackedLost)
  else
    let A1 := if PacketHeader.m_AFC = 1 ∨ PacketHeader.m_AFC = 3
      then { A with m_LastContinuityCounter := PacketHeader.m_CC } else A
    let A2 := if PacketHeader.m_AFC &&& 0x2 ≠ 0
      then { A1 with m_TotalStuffingBytes :=
              A1.m_TotalStuffingBytes + AdaptationField.getStuffingBytes.toNat }
      else A1
    let payloadOffset := xTS.TS_HeaderLength +
      (if PacketHeader.m_AFC &&& 0x2 ≠ 0
        then AdaptationField.getAdaptationFieldLength + 1 else 0)
    absorbPayload A2 TransportStreamPacket PacketHeader payloadOffset

/-- `xPES_Assembler::getNumPacketBytes` (= `m_DataOffset`). -/
def getNumPacketBytes (A : xPES_Assembler) : Nat := A.m_Buffer.length

/-- `xPES_Assembler::getTotalStuffingBytes`. -/
def getTotalStuffingBytes (A : xPES_Assembler) : Nat := A.m_TotalStuffingBytes

end xPES_Assembler

/-- Feeding a list of (packet bytes, parsed header, parsed adaptation field)
triples through `AbsorbPacket`, collecting the per-call results. -/
def runAbsorb : xPES_Assembler →
    List ((Nat → Nat) × xTS_PacketHeader × xTS_AdaptationField) →
    xPES_Assembler × List eResult
  | A, [] => (A, [])
  | A, (pkt, hdr, af) :: rest =>
    let step := A.AbsorbPacket pkt hdr af
    let next := runAbsorb step.1 rest
    (next.1, step.2 :: next.2)

theorem runAbsorb_nil (A : xPES_Assembler) : runAbsorb A [] = (A, []) := rfl

theorem runAbsorb_cons (A : xPES_Assembler) (pkt : Nat → Nat)
    (hdr : xTS_PacketHeader) (af : xTS_AdaptationField)
    (rest : List ((Nat → Nat) × xTS_PacketHeader × xTS_AdaptationField)) :
    runAbsorb A ((pkt, hdr, af) :: rest)
      = ((runAbsorb (A.AbsorbPacket pkt hdr af).1 rest).1,
         (A.AbsorbPacket pkt hdr af).2 ::
           (runAbsorb (A.AbsorbPacket pkt hdr af).1 rest).2) := rfl

theorem runAbsorb_append (A : xPES_Assembler)
    (l1 l2 : List ((Nat → Nat) × xTS_PacketHeader × xTS_AdaptationField)) :
    runAbsorb A (l1 ++ l2)
      = ((runAbsorb (runAbsorb A l1).1 l2).1,
         (runAbsorb A l1).2 ++ (runAbsorb (runAbsorb A l1).1 l2).2) := by
  induction l1 generalizing A with
  | nil => simp [runAbsorb_nil]
  | cons p rest ih =>
    obtain ⟨pkt, hdr, af⟩ := p
    simp [runAbsorb_cons, ih]

/-! Branch lemmas for `AbsorbPacket`, one per reachable return site. -/

theorem absorb_wrong_pid (A : xPES_Assembler) (pkt : Nat → Nat)
    (hdr : xTS_PacketHeader) (af : xTS_AdaptationField)
    (h : hdr.m_PID ≠ A.m_PID) :
    A.AbsorbPacket pkt hdr af = (A, eResult.UnexpectedPID) := by
  unfold xPES_Assembler.AbsorbPacket
  rw [if_pos h]

theorem absorb_cc_mismatch (A : xPES_Assembler) (pkt : Nat → Nat)
    (hdr : xTS_PacketHeader) (af : xTS_AdaptationField)
    (hpid : hdr.m_PID = A.m_PID) (hst : A.m_Started = true)
    (hne : hdr.m_CC ≠ (if hdr.m_AFC = 0 ∨ hdr.m_AFC = 2
      then A.m_LastContinuityCounter else (A.m_LastContinuityCounter + 1) % 16)) :
    A.AbsorbPacket pkt hdr af
      = ({ A with m_Started := false }, eResult.StreamPackedLost) := by
  unfold xPES_Assembler.AbsorbPacket
  rw [if_neg (by simp [hpid]), if_pos ⟨hst, hne⟩]

theorem absorb1_pusi (A : xPES_Assembler) (pkt : Nat → Nat)
    (hdr : xTS_PacketHeader) (af : xTS_AdaptationField)
    (hpid : hdr.m_PID = A.m_PID) (hafc : hdr.m_AFC = 1) (hs : hdr.m_S ≠ 0)
    (hcc : A.m_Started = true → hdr.m_CC = (A.m_LastContinuityCounter + 1) % 16)
    (hok : ¬((xPES_PacketHeader.Parse (A.m_PESH.Reset) (fun i => pkt (4 + i))).2 < 0)) :
    A.AbsorbPacket pkt hdr af
      = ({ A with
            m_Started := true
            m_LastContinuityCounter := hdr.m_CC
            m_PESH := (xPES_PacketHeader.Parse (A.m_PESH.Reset) (fun i => pkt (4 + i))).1
            m_Buffer := xPES_Assembler.payloadList pkt 4 },
         if (xPES_PacketHeader.Parse (A.m_PESH.Reset) (fun i => pkt (4 + i))).1.getPacketLength > 0 ∧
             6 + (xPES_PacketHeader.Parse (A.m_PESH.Reset) (fun i => pkt (4 + i))).1.getPacketLength ≤ 184
           then eResult.AssemblingFinished else eResult.AssemblingStarted) := by
  unfold xPES_Assembler.AbsorbPacket xPES_Assembler.absorbPayload
  rw [if_neg (by simp [hpid])]
  rw [if_neg (by rintro ⟨hstt, hne⟩; exact hne (by simp [hafc, hcc hstt]))]
  simp only [hafc, xTS.TS_HeaderLength, xTS.TS_PacketLength]
  norm_num [hs, hok, show (1 &&& 2 : Nat) = 0 from rfl]
  split <;> simp_all

theorem absorb1_pusi_badheader (A : xPES_Assembler) (pkt : Nat → Nat)
    (hdr : xTS_PacketHeader) (af : xTS_AdaptationField)
    (hpid : hdr.m_PID = A.m_PID) (hafc : hdr.m_AFC = 1) (hs : hdr.m_S ≠ 0)
    (hcc : A.m_Started = true → hdr.m_CC = (A.m_LastContinuityCounter + 1) % 16)
    (hbad : (xPES_PacketHeader.Parse (A.m_PESH.Reset) (fun i => pkt (4 + i))).2 < 0) :
    A.AbsorbPacket pkt hdr af
      = ({ A with
            m_Started := false
            m_LastContinuityCounter := hdr.m_CC
            m_PESH := (xPES_PacketHeader.Parse (A.m_PESH.Reset) (fun i => pkt (4 + i))).1
            m_Buffer := [] },
         eResult.UnexpectedPID) := by
  unfold xPES_Assembler.AbsorbPacket xPES_Assembler.absorbPayload
  rw [if_neg (by simp [hpid])]
  rw [if_neg (by rintro ⟨hstt, hne⟩; exact hne (by simp [hafc, hcc hstt]))]
  simp only [hafc, xTS.TS_HeaderLength, xTS.TS_PacketLength]
  norm_num [hs, hbad, show (1 &&& 2 : Nat) = 0 from rfl]

theorem absorb1_cont (A : xPES_Assembler) (pkt : Nat → Nat)
    (hdr : xTS_PacketHeader) (af : xTS_AdaptationField)
    (hpid : hdr.m_PID = A.m_PID) (hafc : hdr.m_AFC = 1) (hs : hdr.m_S = 0)
    (hst : A.m_Started = true)
    (hcc : hdr.m_CC = (A.m_LastContinuityCounter + 1) % 16) :
    A.AbsorbPacket pkt hdr af
      = ({ A with
            m_LastContinuityCounter := hdr.m_CC
            m_Buffer := A.m_Buffer ++ xPES_Assembler.payloadList pkt 4 },
         if A.m_PESH.getPacketLength > 0 ∧
             (A.m_Buffer ++ xPES_Assembler.payloadList pkt 4).length ≥
               6 + A.m_PESH.getPacketLength
           then eResult.AssemblingFinished else eResult.AssemblingContinue) := by
  unfold xPES_Assembler.AbsorbPacket xPES_Assembler.absorbPayload
  rw [if_neg (by simp [hpid])]
  rw [if_neg (by rintro ⟨hstt, hne⟩; exact hne (by simp [hafc, hcc]))]
  simp only [hafc, xTS.TS_HeaderLength, xTS.TS_PacketLength]
  norm_num [hs, hst, show (1 &&& 2 : Nat) = 0 from rfl]
  split <;> simp_all

theorem absorb1_idle_cont (A : xPES_Assembler) (pkt : Nat → Nat)
    (hdr : xTS_PacketHeader) (af : xTS_AdaptationField)
    (hpid : hdr.m_PID = A.m_PID) (hafc : hdr.m_AFC = 1) (hs : hdr.m_S = 0)
    (hst : A.m_Started = false) :
    A.AbsorbPacket pkt hdr af
      = ({ A with m_LastContinuityCounter := hdr.m_CC }, eResult.StreamPackedLost) := by
  unfold xPES_Assembler.AbsorbPacket xPES_Assembler.absorbPayload
  rw [if_neg (by simp [hpid])]
  rw [if_neg (by rintro ⟨hstt, -⟩; rw [hst] at hstt; cases hstt)]
  simp only [hafc, xTS.TS_HeaderLength, xTS.TS_PacketLength]
  norm_num [hs, hst, show (1 &&& 2 : Nat) = 0 from rfl]

theorem absorb3_cont (A : xPES_Assembler) (pkt : Nat → Nat)
    (hdr : xTS_PacketHeader) (af : xTS_AdaptationField)
    (hpid : hdr.m_PID = A.m_PID) (hafc : hdr.m_AFC = 3) (hs : hdr.m_S = 0)
    (hst : A.m_Started = true)
    (hcc : hdr.m_CC = (A.m_LastContinuityCounter + 1) % 16)
    (hlen : af.m_Len ≤ 182) :
    A.AbsorbPacket pkt hdr af
      = ({ A with
            m_LastContinuityCounter := hdr.m_CC
            m_TotalStuffingBytes :=
              A.m_TotalStuffingBytes + af.getStuffingBytes.toNat
            m_Buffer := A.m_Buffer ++
              xPES_Assembler.payloadList pkt (4 + (af.m_Len + 1)) },
         if A.m_PESH.getPacketLength > 0 ∧
             (A.m_Buffer ++ xPES_Assembler.payloadList pkt (4 + (af.m_Len + 1))).length ≥
               6 + A.m_PESH.getPacketLength
           then eResult.AssemblingFinished else eResult.AssemblingContinue) := by
  unfold xPES_Assembler.AbsorbPacket xPES_Assembler.absorbPayload
  rw [if_neg (by simp [hpid])]
  rw [if_neg (by rintro ⟨hstt, hne⟩; exact hne (by simp [hafc, hcc]))]
  simp only [hafc, xTS.TS_HeaderLength, xTS.TS_PacketLength,
    xTS_AdaptationField.getAdaptationFieldLength]
  rw [if_neg (by norm_num [show (3 &&& 2 : Nat) = 2 from rfl]; omega)]
  norm_num [hs, hst, show (3 &&& 2 : Nat) = 2 from rfl]
  split <;> simp_all

/-- With a unit in progress, a matching continuity counter never produces
`StreamPackedLost` (every reachable return on that path is one of
`UnexpectedPID`, `AssemblingStarted`, `AssemblingContinue`,
`AssemblingFinished`). -/
theorem absorbPayload_not_lost (A2 : xPES_Assembler) (pkt : Nat → Nat)
    (hdr : xTS_PacketHeader) (off : Nat) (hst : A2.m_Started = true) :
    (xPES_Assembler.absorbPayload A2 pkt hdr off).2 ≠ eResult.StreamPackedLost := by
  simp only [xPES_Assembler.absorbPayload]
  split
  · simp [hst]
  · split
    · split
      · simp
      · split <;> simp
    · split <;> simp

theorem absorb_match_not_lost (A : xPES_Assembler) (pkt : Nat → Nat)
    (hdr : xTS_PacketHeader) (af : xTS_AdaptationField)
    (hpid : hdr.m_PID = A.m_PID) (hst : A.m_Started = true)
    (hcc : hdr.m_CC = (if hdr.m_AFC = 0 ∨ hdr.m_AFC = 2
      then A.m_LastContinuityCounter else (A.m_LastContinuityCounter + 1) % 16)) :
    (A.AbsorbPacket pkt hdr af).2 ≠ eResult.StreamPackedLost := by
  unfold xPES_Assembler.AbsorbPacket
  rw [if_neg (by simp [hpid]), if_neg (by rintro ⟨-, hne⟩; exact hne hcc)]
  apply absorbPayload_not_lost
  split_ifs <;> exact hst

/-- The monitored stream identifier of the scenarios (the audio PID the
application passes to `Init`). -/
def TPID : Nat := 136

/-- A parsed transport header for the monitored PID with the given
unit-start flag, adaptation-field-control and continuity counter. -/
def mkHdr (s afc cc : Nat) : xTS_PacketHeader :=
  { m_SB := 0x47, m_E := 0, m_S := s, m_T := 0, m_PID := TPID,
    m_TSC := 0, m_AFC := afc, m_CC := cc }

/-- A unit-start transport packet: its payload (bytes 4..187) is
`00 00 01 BD 00 00 ...` — a valid PES start code, private-stream-1 id
(no extended header), declared PES length 0 (unbounded). -/
def startPkt : Nat → Nat := fun i =>
  if i = 6 then 1 else if i = 7 then 0xBD else 0

/-- A continuation transport packet: all payload bytes zero. -/
def contPkt : Nat → Nat := fun _ => 0

/-- The PES header `startPkt`'s payload parses to. -/
def PESH_bd : xPES_PacketHeader :=
  { xPES_PacketHeader.Reset default with
    m_PacketStartCodePrefix := 1
    m_StreamId := 0xBD }

theorem parse_startPkt (q : xPES_PacketHeader) :
    xPES_PacketHeader.Parse (q.Reset) (fun i => startPkt (4 + i)) = (PESH_bd, 6) := by
  rfl

/-- Absorbing a unit-start packet while idle: assembly starts. -/
theorem start_step (A : xPES_Assembler) (c : Nat)
    (hpid : A.m_PID = TPID) (hst : A.m_Started = false) :
    A.AbsorbPacket startPkt (mkHdr 1 1 c) AF0
      = ({ A with
            m_Started := true
            m_LastContinuityCounter := c
            m_PESH := PESH_bd
            m_Buffer := xPES_Assembler.payloadList startPkt 4 },
         eResult.AssemblingStarted) := by
  have h := absorb1_pusi A startPkt (mkHdr 1 1 c) AF0 (by simp [mkHdr, hpid])
    rfl (by simp [mkHdr]) (by simp [hst]) (by rw [parse_startPkt]; norm_num)
  rw [h, parse_startPkt]
  norm_num [PESH_bd, xPES_PacketHeader.getPacketLength, xPES_PacketHeader.Reset, mkHdr]

/-- Absorbing an in-sequence continuation packet while assembling an
unbounded (declared length 0) unit: the payload is appended and the call
reports `AssemblingContinue`. -/
theorem cont_step (A : xPES_Assembler) (c : Nat) (hpid : A.m_PID = TPID)
    (hst : A.m_Started = true) (hplen : A.m_PESH.m_PacketLength = 0)
    (hcc : c = (A.m_LastContinuityCounter + 1) % 16) :
    A.AbsorbPacket contPkt (mkHdr 0 1 c) AF0
      = ({ A with
            m_LastContinuityCounter := c
            m_Buffer := A.m_Buffer ++ xPES_Assembler.payloadList contPkt 4 },
         eResult.AssemblingContinue) := by
  have h := absorb1_cont A contPkt (mkHdr 0 1 c) AF0 (by simp [mkHdr, hpid])
    rfl rfl hst (by simp [mkHdr, hcc])
  rw [h]
  norm_num [xPES_PacketHeader.getPacketLength, hplen, mkHdr]

/-- Absorbing an out-of-sequence continuation packet while assembling:
the unit is abandoned and the call reports `StreamPackedLost`. -/
theorem gap_step (A : xPES_Assembler) (x : Nat) (hpid : A.m_PID = TPID)
    (hst : A.m_Started = true)
    (hne : x ≠ (A.m_LastContinuityCounter + 1) % 16) :
    A.AbsorbPacket contPkt (mkHdr 0 1 x) AF0
      = ({ A with m_Started := false }, eResult.StreamPackedLost) := by
  exact absorb_cc_mismatch A contPkt (mkHdr 0 1 x) AF0 (by simp [mkHdr, hpid]) hst
    (by simp [mkHdr, hne])

/-- Absorbing a continuation packet while idle: `StreamPackedLost`
(out-of-sync continuation), counter recorded, still idle. -/
theorem idle_step (A : xPES_Assembler) (x : Nat) (hpid : A.m_PID = TPID)
    (hst : A.m_Started = false) :
    A.AbsorbPacket contPkt (mkHdr 0 1 x) AF0
      = ({ A with m_LastContinuityCounter := x }, eResult.StreamPackedLost) := by
  exact absorb1_idle_cont A contPkt (mkHdr 0 1 x) AF0 (by simp [mkHdr, hpid])
    rfl rfl hst

/-- `n` consecutive continuation packets for the monitored PID whose
counters continue mod-16 from `c0`. -/
def contRun (c0 n : Nat) :
    List ((Nat → Nat) × xTS_PacketHeader × xTS_AdaptationField) :=
  (List.range n).map (fun i => (contPkt, mkHdr 0 1 ((c0 + 1 + i) % 16), AF0))

/-- `n` continuation packets with arbitrary counters `g`. -/
def idleRun (g : Nat → Nat) (n : Nat) :
    List ((Nat → Nat) × xTS_PacketHeader × xTS_AdaptationField) :=
  (List.range n).map (fun i => (contPkt, mkHdr 0 1 (g i), AF0))

theorem contRun_succ (c n : Nat) :
    contRun c (n + 1)
      = (contPkt, mkHdr 0 1 ((c + 1) % 16), AF0) :: contRun ((c + 1) % 16) n := by
  unfold contRun
  rw [List.range_succ_eq_map, List.map_cons, List.map_map]
  refine congrArg₂ _ (by norm_num) ?_
  apply List.map_congr_left
  intro a _
  simp only [Function.comp_apply]
  have : (c + 1 + (a + 1)) % 16 = ((c + 1) % 16 + 1 + a) % 16 := by omega
  rw [this]

theorem idleRun_succ (g : Nat → Nat) (n : Nat) :
    idleRun g (n + 1)
      = (contPkt, mkHdr 0 1 (g 0), AF0) :: idleRun (fun i => g (i + 1)) n := by
  unfold idleRun
  rw [List.range_succ_eq_map, List.map_cons, List.map_map]
  rfl

/-- Feeding an assembling state a strictly mod-16-incrementing run of
continuation packets yields `AssemblingContinue` for every packet, and the
final state is still assembling with the expected counter. -/
theorem contRun_results (n : Nat) : ∀ (A : xPES_Assembler) (c : Nat),
    A.m_PID = TPID → A.m_Started = true → A.m_LastContinuityCounter = c →
    c < 16 → A.m_PESH.m_PacketLength = 0 →
    (runAbsorb A (contRun c n)).2 = List.replicate n eResult.AssemblingContinue ∧
    (runAbsorb A (contRun c n)).1.m_PID = TPID ∧
    (runAbsorb A (contRun c n)).1.m_Started = true ∧
    (runAbsorb A (contRun c n)).1.m_LastContinuityCounter = (c + n) % 16 ∧
    (runAbsorb A (contRun c n)).1.m_PESH.m_PacketLength = 0 := by
  induction n with
  | zero =>
    intro A c h1 h2 h3 h4 h5
    refine ⟨rfl, h1, h2, ?_, h5⟩
    simp only [contRun, List.range_zero, List.map_nil, runAbsorb_nil]
    omega
  | succ n ih =>
    intro A c h1 h2 h3 h4 h5
    rw [contRun_succ, runAbsorb_cons,
      cont_step A ((c + 1) % 16) h1 h2 h5 (by rw [h3])]
    have ihh := ih { A with
        m_LastContinuityCounter := (c + 1) % 16
        m_Buffer := A.m_Buffer ++ xPES_Assembler.payloadList contPkt 4 }
      ((c + 1) % 16) h1 h2 rfl (by omega) h5
    refine ⟨?_, ihh.2.1, ihh.2.2.1, ?_, ihh.2.2.2.2⟩
    · rw [List.replicate_succ]
      exact congrArg _ ihh.1
    · rw [ihh.2.2.2.1]
      omega

/-- Feeding an idle assembler any run of continuation packets yields
`StreamPackedLost` for every packet, and the assembler stays idle. -/
theorem idleRun_results (n : Nat) : ∀ (A : xPES_Assembler) (g : Nat → Nat),
    A.m_PID = TPID → A.m_Started = false →
    (runAbsorb A (idleRun g n)).2 = List.replicate n eResult.StreamPackedLost ∧
    (runAbsorb A (idleRun g n)).1.m_PID = TPID ∧
    (runAbsorb A (idleRun g n)).1.m_Started = false := by
  induction n with
  | zero =>
    intro A g h1 h2
    exact ⟨rfl, h1, h2⟩
  | succ n ih =>
    intro A g h1 h2
    rw [idleRun_succ, runAbsorb_cons, idle_step A (g 0) h1 h2]
    have ihh := ih { A with m_LastContinuityCounter := g 0 } (fun i => g (i + 1)) h1 h2
    exact ⟨by rw [List.replicate_succ]; exact congrArg _ ihh.1, ihh.2.1, ihh.2.2⟩

theorem startcode_ne (a b c : Nat) (ha : a < 256) (hb : b < 256) (hc : c < 256)
    (h : a ≠ 0 ∨ b ≠ 0 ∨ c ≠ 1) :
    (a <<< 16) ||| (b <<< 8) ||| c ≠ 1 := by
  rw [Nat.or_assoc, lor_shift b c 8 (by omega),
    lor_shift a (b * 2 ^ 8 + c) 16 (by norm_num; omega)]
  norm_num
  omega

theorem PES_Parse_fail (p : xPES_PacketHeader) (f : Nat → Nat)
    (h : (f 0 <<< 16) ||| (f 1 <<< 8) ||| f 2 ≠ 1) :
    (p.Parse f).2 = NOT_VALID ∧ (p.Parse f).2 < 0 := by
  unfold xPES_PacketHeader.Parse
  rw [if_pos (by simpa using h)]
  exact ⟨rfl, by norm_num [NOT_VALID]⟩

/-- C10: A unit-start packet of the target identifier carrying payload whose
first three payload bytes are not the PES start-code prefix `0x000001` makes
`AbsorbPacket` return `UnexpectedPID` — the same result value returned for a
packet whose identifier does not match the target — leaving the assembler
with no unit in progress and an empty buffer. -/
theorem c10_bad_startcode (A : xPES_Assembler) (pkt : Nat → Nat)
    (hdr : xTS_PacketHeader) (af : xTS_AdaptationField)
    (hpid : hdr.m_PID = A.m_PID) (hs : hdr.m_S ≠ 0) (hafc : hdr.m_AFC = 1)
    (hcc : A.m_Started = true → hdr.m_CC = (A.m_LastContinuityCounter + 1) % 16)
    (hb4 : pkt 4 < 256) (hb5 : pkt 5 < 256) (hb6 : pkt 6 < 256)
    (hbad : pkt 4 ≠ 0 ∨ pkt 5 ≠ 0 ∨ pkt 6 ≠ 1) :
    (A.AbsorbPacket pkt hdr af).2 = eResult.UnexpectedPID ∧
    (A.AbsorbPacket pkt hdr af).1.m_Started = false ∧
    (A.AbsorbPacket pkt hdr af).1.m_Buffer = [] ∧
    (∀ (B : xPES_Assembler) (pkt2 : Nat → Nat) (hdr2 : xTS_PacketHeader)
        (af2 : xTS_AdaptationField), hdr2.m_PID ≠ B.m_PID →
      (B.AbsorbPacket pkt2 hdr2 af2).2 = eResult.UnexpectedPID) := by
  have hfail := PES_Parse_fail (A.m_PESH.Reset) (fun i => pkt (4 + i))
    (startcode_ne _ _ _ hb4 hb5 hb6 hbad)
  have h := absorb1_pusi_badheader A pkt hdr af hpid hafc hs hcc hfail.2
  refine ⟨by rw [h], by rw [h], by rw [h], ?_⟩
  intro B pkt2 hdr2 af2 hne
  rw [absorb_wrong_pid B pkt2 hdr2 af2 hne]

/-- C10 witness: an all-zero payload (start code `00 00 00`) on a unit-start
packet of the monitored PID. -/
theorem c10_bad_startcode_witness :
    ((xPES_Assembler.Init TPID).AbsorbPacket contPkt (mkHdr 1 1 0) AF0).2
        = eResult.UnexpectedPID ∧
    ((xPES_Assembler.Init TPID).AbsorbPacket contPkt (mkHdr 1 1 0) AF0).1.m_Buffer
        = [] := by
  have h := c10_bad_startcode (xPES_Assembler.Init TPID) contPkt (mkHdr 1 1 0) AF0
    rfl (by decide) rfl (by intro hh; cases hh) (by decide) (by decide) (by decide)
    (Or.inr (Or.inr (by decide)))
  exact ⟨h.1, h.2.2.1⟩

/-- The `m_Started`-true assembler state used by the C2 counterexample (the
state just after a unit-start packet was absorbed with counter 0). -/
def c2InProgress : xPES_Assembler :=
  { m_PID := TPID, m_Buffer := xPES_Assembler.payloadList startPkt 4,
    m_LastContinuityCounter := 0, m_Started := true,
    m_TotalStuffingBytes := 0, m_PESH := PESH_bd }

/-- C2 counterexample: the claim says a continuity gap yields a
`ContinuityLost` result distinct from the `OutOfSyncContinuation` result of
a continuation with no unit in progress; in the code both scenarios return
the single value `StreamPackedLost` — the enum has no two distinct error
values for them. -/
theorem c2_counterexample :
    (c2InProgress.AbsorbPacket contPkt (mkHdr 0 1 5) AF0).2
        = eResult.StreamPackedLost ∧
    ((xPES_Assembler.Init TPID).AbsorbPacket contPkt (mkHdr 0 1 1) AF0).2
        = eResult.StreamPackedLost ∧
    (c2InProgress.AbsorbPacket contPkt (mkHdr 0 1 5) AF0).2
        = ((xPES_Assembler.Init TPID).AbsorbPacket contPkt (mkHdr 0 1 1) AF0).2 := by
  have h1 := gap_step c2InProgress 5 rfl rfl (by decide)
  have h2 := idle_step (xPES_Assembler.Init TPID) 1 rfl rfl
  exact ⟨by rw [h1], by rw [h2], by rw [h1, h2]⟩

/-- C2 (amended): every assembler outcome is returned as an `eResult` value
(the function is total, never aborting); a continuity-counter gap detected
while a unit is in progress abandons the unit and returns
`StreamPackedLost`, and a continuation packet arriving when no unit is in
progress returns the *same* `StreamPackedLost` value — the code does not
give the two error kinds distinct result values. -/
theorem c2_amended (A : xPES_Assembler) (pkt : Nat → Nat)
    (hdr : xTS_PacketHeader) (af : xTS_AdaptationField)
    (hpid : hdr.m_PID = A.m_PID) :
    (A.m_Started = true →
      hdr.m_CC ≠ (if hdr.m_AFC = 0 ∨ hdr.m_AFC = 2 then A.m_LastContinuityCounter
        else (A.m_LastContinuityCounter + 1) % 16) →
      A.AbsorbPacket pkt hdr af
        = ({ A with m_Started := false }, eResult.StreamPackedLost)) ∧
    (A.m_Started = false → hdr.m_S = 0 → hdr.m_AFC = 1 →
      (A.AbsorbPacket pkt hdr af).2 = eResult.StreamPackedLost) := by
  refine ⟨fun hst hne => absorb_cc_mismatch A pkt hdr af hpid hst hne, ?_⟩
  intro hst hs hafc
  rw [absorb1_idle_cont A pkt hdr af hpid hafc hs hst]

/-- C2 amended witness: the gap scenario and the idle-continuation scenario
both produce `StreamPackedLost`. -/
theorem c2_amended_witness :
    c2InProgress.AbsorbPacket contPkt (mkHdr 0 1 7) AF0
        = ({ c2InProgress with m_Started := false }, eResult.StreamPackedLost) ∧
    ((xPES_Assembler.Init TPID).AbsorbPacket contPkt (mkHdr 0 1 3) AF0).2
        = eResult.StreamPackedLost := by
  exact ⟨(c2_amended c2InProgress contPkt (mkHdr 0 1 7) AF0 rfl).1 rfl (by decide),
    (c2_amended (xPES_Assembler.Init TPID) contPkt (mkHdr 0 1 3) AF0 rfl).2 rfl rfl rfl⟩

/-- C4's concrete counterexample run: unit start with counter 0, then
counter 2 (one value, 1, skipped), counter 3, then the next unit start. -/
def c4seq : List ((Nat → Nat) × xTS_PacketHeader × xTS_AdaptationField) :=
  [(startPkt, mkHdr 1 1 0, AF0),
   (contPkt, mkHdr 0 1 2, AF0),
   (contPkt, mkHdr 0 1 3, AF0),
   (startPkt, mkHdr 1 1 4, AF0)]

/-- C4 counterexample: in a sequence with exactly one skipped counter value
(0, skip 1, 2, 3, unit-start 4), `AbsorbPacket` returns `StreamPackedLost`
*twice*, not exactly once: once at the gap packet and once more at the
following continuation (which arrives with no unit in progress, and is
signaled with the same result value). -/
theorem c4_counterexample :
    (runAbsorb (xPES_Assembler.Init TPID) c4seq).2
      = [eResult.AssemblingStarted, eResult.StreamPackedLost,
         eResult.StreamPackedLost, eResult.AssemblingStarted] ∧
    (runAbsorb (xPES_Assembler.Init TPID) c4seq).2.count eResult.StreamPackedLost
      = 2 := by
  simp only [c4seq, runAbsorb_cons, runAbsorb_nil]
  rw [start_step (xPES_Assembler.Init TPID) 0 rfl rfl]
  rw [gap_step _ 2 rfl rfl (by decide)]
  rw [idle_step _ 3 rfl rfl]
  rw [start_step _ 4 rfl rfl]
  exact ⟨rfl, rfl⟩

/-- A no-loss synthetic sequence: a unit-start packet with counter `c0`
followed by `n` continuation packets with strictly incrementing (mod 16)
counters. -/
def chainSeq (c0 n : Nat) :
    List ((Nat → Nat) × xTS_PacketHeader × xTS_AdaptationField) :=
  (startPkt, mkHdr 1 1 c0, AF0) :: contRun c0 n

/-- The same sequence with one counter value skipped after `n1`
continuations, then `n2` further continuations of the broken unit, then the
next unit-start packet with counter `c'`. -/
def gapSeq (c0 n1 n2 c' : Nat) :
    List ((Nat → Nat) × xTS_PacketHeader × xTS_AdaptationField) :=
  chainSeq c0 n1 ++
    ((contPkt, mkHdr 0 1 ((c0 + n1 + 2) % 16), AF0) ::
      (idleRun (fun i => (c0 + n1 + 3 + i) % 16) n2 ++
        [(startPkt, mkHdr 1 1 c', AF0)]))

theorem chainSeq_results (c0 n : Nat) (hc : c0 < 16) :
    (runAbsorb (xPES_Assembler.Init TPID) (chainSeq c0 n)).2
      = eResult.AssemblingStarted :: List.replicate n eResult.AssemblingContinue ∧
    (runAbsorb (xPES_Assembler.Init TPID) (chainSeq c0 n)).1.m_PID = TPID ∧
    (runAbsorb (xPES_Assembler.Init TPID) (chainSeq c0 n)).1.m_Started = true ∧
    (runAbsorb (xPES_Assembler.Init TPID) (chainSeq c0 n)).1.m_LastContinuityCounter
      = (c0 + n) % 16 ∧
    (runAbsorb (xPES_Assembler.Init TPID) (chainSeq c0 n)).1.m_PESH.m_PacketLength
      = 0 := by
  unfold chainSeq
  rw [runAbsorb_cons, start_step (xPES_Assembler.Init TPID) c0 rfl rfl]
  have h := contRun_results n { (xPES_Assembler.Init TPID) with
      m_Started := true
      m_LastContinuityCounter := c0
      m_PESH := PESH_bd
      m_Buffer := xPES_Assembler.payloadList startPkt 4 } c0 rfl rfl rfl hc rfl
  exact ⟨by rw [h.1], h.2.1, h.2.2.1, h.2.2.2.1, h.2.2.2.2⟩

theorem gapSeq_results (c0 n1 n2 c' : Nat) (hc : c0 < 16) :
    (runAbsorb (xPES_Assembler.Init TPID) (gapSeq c0 n1 n2 c')).2
      = eResult.AssemblingStarted ::
        (List.replicate n1 eResult.AssemblingContinue ++
          (eResult.StreamPackedLost ::
            (List.replicate n2 eResult.StreamPackedLost ++
              [eResult.AssemblingStarted]))) := by
  have hchain := chainSeq_results c0 n1 hc
  unfold gapSeq
  rw [runAbsorb_append]
  set A1 := (runAbsorb (xPES_Assembler.Init TPID) (chainSeq c0 n1)).1 with hA1
  rw [runAbsorb_cons]
  rw [gap_step A1 ((c0 + n1 + 2) % 16) hchain.2.1 hchain.2.2.1
    (by rw [hchain.2.2.2.1]; omega)]
  rw [runAbsorb_append]
  have hidle := idleRun_results n2 { A1 with m_Started := false }
    (fun i => (c0 + n1 + 3 + i) % 16) hchain.2.1 rfl
  set A2 := (runAbsorb { A1 with m_Started := false }
    (idleRun (fun i => (c0 + n1 + 3 + i) % 16) n2)).1 with hA2
  rw [runAbsorb_cons, start_step A2 c' hidle.2.1 hidle.2.2, runAbsorb_nil]
  simp only [Prod.fst, Prod.snd]
  rw [hchain.1, hidle.1]
  simp

/-- C4 (amended): whenever a unit is in progress and a matching-identifier
packet arrives, the expected continuity counter is unchanged for
adaptation-field-control 0 or 2, else previous+1 mod 16; on a mismatch the
unit is abandoned (back to idle) with `StreamPackedLost`, and on a match no
loss is ever signaled.  Hence a strictly incrementing no-loss sequence never
yields `StreamPackedLost`; a sequence with one skipped counter value yields
`StreamPackedLost` at the gap packet *and at every following continuation
packet of the broken unit* (not exactly once — the code signals the
out-of-sync continuations with the same value), and assembly restarts with
`AssemblingStarted` at the next unit-start packet. -/
theorem c4_amended :
    (∀ (A : xPES_Assembler) (pkt : Nat → Nat) (hdr : xTS_PacketHeader)
        (af : xTS_AdaptationField), hdr.m_PID = A.m_PID → A.m_Started = true →
      (hdr.m_CC ≠ (if hdr.m_AFC = 0 ∨ hdr.m_AFC = 2 then A.m_LastContinuityCounter
          else (A.m_LastContinuityCounter + 1) % 16) →
        A.AbsorbPacket pkt hdr af
          = ({ A with m_Started := false }, eResult.StreamPackedLost)) ∧
      (hdr.m_CC = (if hdr.m_AFC = 0 ∨ hdr.m_AFC = 2 then A.m_LastContinuityCounter
          else (A.m_LastContinuityCounter + 1) % 16) →
        (A.AbsorbPacket pkt hdr af).2 ≠ eResult.StreamPackedLost)) ∧
    (∀ c0 n, c0 < 16 →
      (runAbsorb (xPES_Assembler.Init TPID) (chainSeq c0 n)).2.count
        eResult.StreamPackedLost = 0) ∧
    (∀ c0 n1 n2 c', c0 < 16 →
      (runAbsorb (xPES_Assembler.Init TPID) (gapSeq c0 n1 n2 c')).2
        = eResult.AssemblingStarted ::
          (List.replicate n1 eResult.AssemblingContinue ++
            (eResult.StreamPackedLost ::
              (List.replicate n2 eResult.StreamPackedLost ++
                [eResult.AssemblingStarted])))) := by
  refine ⟨fun A pkt hdr af hpid hst =>
      ⟨fun hne => absorb_cc_mismatch A pkt hdr af hpid hst hne,
       fun heq => absorb_match_not_lost A pkt hdr af hpid hst heq⟩,
    fun c0 n hc => ?_, fun c0 n1 n2 c' hc => gapSeq_results c0 n1 n2 c' hc⟩
  rw [(chainSeq_results c0 n hc).1]
  rw [List.count_eq_zero]
  simp [List.mem_replicate]

/-- C4 amended witness: a 3-packet no-loss chain counts zero losses; the
5-packet one-skip sequence produces the Started/Continue/Lost/Lost/Started
trace. -/
theorem c4_amended_witness :
    (runAbsorb (xPES_Assembler.Init TPID) (chainSeq 0 2)).2.count
      eResult.StreamPackedLost = 0 ∧
    (runAbsorb (xPES_Assembler.Init TPID) (gapSeq 0 1 1 9)).2
      = eResult.AssemblingStarted ::
        (List.replicate 1 eResult.AssemblingContinue ++
          (eResult.StreamPackedLost ::
            (List.replicate 1 eResult.StreamPackedLost ++
              [eResult.AssemblingStarted]))) :=
  ⟨c4_amended.2.1 0 2 (by norm_num), c4_amended.2.2 0 1 1 9 (by norm_num)⟩

theorem payloadList_length (pkt : Nat → Nat) (off : Nat) :
    (xPES_Assembler.payloadList pkt off).length = xTS.TS_PacketLength - off := by
  simp [xPES_Assembler.payloadList]

/-- `xPES_PacketHeader::Parse` on a start code followed by the
private-stream-1 id `0xBD` (outside the audio/video ranges): the basic
6-byte header only, no extension. -/
theorem PES_Parse_noext (p : xPES_PacketHeader) (f : Nat → Nat) (L : Nat)
    (h0 : f 0 = 0) (h1 : f 1 = 0) (h2 : f 2 = 1) (h3 : f 3 = 0xBD)
    (hpl : (f 4 <<< 8) ||| f 5 = L) :
    p.Parse f = ({ p with
        m_PacketStartCodePrefix := 1
        m_StreamId := 0xBD
        m_PacketLength := L
        m_headerLength := 6 }, 6) := by
  simp only [xPES_PacketHeader.Parse, h0, h1, h2, h3, hpl,
    show ((0 : Nat) <<< 16) ||| ((0 : Nat) <<< 8) ||| 1 = 1 from by decide]
  norm_num [xTS.PES_HeaderLength]

/-- First transport packet of the C3 scenario: payload
`00 00 01 BD <len hi> <len lo> 00 ...` — a unit-start with declared PES
length `len`. -/
def c3pkt1 (len : Nat) : Nat → Nat := fun i =>
  if i = 6 then 1 else if i = 7 then 0xBD else if i = 8 then len / 256
  else if i = 9 then len % 256 else 0

/-- Second transport packet of the C3 scenario: adaptation field of length
`a` (length byte at offset 4, zero flags), then an all-zero payload sized to
complete the unit exactly. -/
def c3pkt2 (a : Nat) : Nat → Nat := fun i => if i = 4 then a else 0

/-- The adaptation field the caller parses from the second packet. -/
def c3af (len : Nat) : xTS_AdaptationField :=
  (xTS_AdaptationField.Parse AF0 (fun i => c3pkt2 (361 - len) (4 + i)) 3).1

/-- The PES header state after parsing the first C3 packet's payload. -/
def c3pesh (len : Nat) : xPES_PacketHeader :=
  { xPES_PacketHeader.Reset default with
    m_PacketStartCodePrefix := 1
    m_StreamId := 0xBD
    m_PacketLength := len
    m_headerLength := 6 }

theorem c3pkt1_parse (q : xPES_PacketHeader) (len : Nat) :
    xPES_PacketHeader.Parse (q.Reset) (fun i => c3pkt1 len (4 + i))
      = (c3pesh len, 6) := by
  have h := PES_Parse_noext (q.Reset) (fun i => c3pkt1 len (4 + i)) len
    (by norm_num [c3pkt1]) (by norm_num [c3pkt1]) (by norm_num [c3pkt1])
    (by norm_num [c3pkt1]) ?hpl
  · exact h.trans (by rfl)
  case hpl =>
    show ((c3pkt1 len (4 + 4)) <<< 8) ||| c3pkt1 len (4 + 5) = len
    have ha : c3pkt1 len (4 + 4) = len / 256 := by norm_num [c3pkt1]
    have hb : c3pkt1 len (4 + 5) = len % 256 := by norm_num [c3pkt1]
    rw [ha, hb, lor_shift (len / 256) (len % 256) 8 (show len % 256 < 2 ^ 8 by omega)]
    norm_num
    omega

/-- The assembler state after absorbing the first C3 packet. -/
def c3A1 (len : Nat) : xPES_Assembler :=
  { m_PID := TPID, m_Buffer := xPES_Assembler.payloadList (c3pkt1 len) 4,
    m_LastContinuityCounter := 0, m_Started := true, m_TotalStuffingBytes := 0,
    m_PESH := c3pesh len }

theorem c3af_len (len : Nat) (h1 : 185 ≤ len) (h2 : len ≤ 361) :
    (c3af len).m_Len = 361 - len := by
  have h := (AF_Parse_success AF0 (fun i => c3pkt2 (361 - len) (4 + i)) 3
    (Or.inr ⟨rfl, by norm_num [c3pkt2]; omega⟩)).2
  rw [c3af, h]
  norm_num [c3pkt2]

/-- C3: For a single PES unit spanning exactly two transport packets of the
target identifier — a unit-start packet whose declared nonzero PES length
`len` exceeds the first packet's 184-byte payload, followed by the
continuation packet (with an adaptation field sized so that its payload
completes the unit exactly) — `AbsorbPacket` returns `AssemblingStarted`
for the first packet and `AssemblingFinished` for the second, and the
accumulated byte count then equals `6 + len` exactly. -/
theorem c3_two_packet_unit (len : Nat) (h1 : 185 ≤ len) (h2 : len ≤ 361) :
    ((xPES_Assembler.Init TPID).AbsorbPacket (c3pkt1 len) (mkHdr 1 1 0) AF0).2
      = eResult.AssemblingStarted ∧
    ((((xPES_Assembler.Init TPID).AbsorbPacket (c3pkt1 len) (mkHdr 1 1 0) AF0).1).AbsorbPacket
        (c3pkt2 (361 - len)) (mkHdr 0 3 1) (c3af len)).2
      = eResult.AssemblingFinished ∧
    (((((xPES_Assembler.Init TPID).AbsorbPacket (c3pkt1 len) (mkHdr 1 1 0) AF0).1).AbsorbPacket
        (c3pkt2 (361 - len)) (mkHdr 0 3 1) (c3af len)).1).getNumPacketBytes
      = 6 + len := by
  have hstep1 := absorb1_pusi (xPES_Assembler.Init TPID) (c3pkt1 len)
    (mkHdr 1 1 0) AF0 rfl rfl (by decide) (by simp [xPES_Assembler.Init])
    (by rw [c3pkt1_parse]; norm_num)
  rw [c3pkt1_parse] at hstep1
  have hplen : (c3pesh len).getPacketLength = len := rfl
  have hr1 : ((xPES_Assembler.Init TPID).AbsorbPacket (c3pkt1 len)
      (mkHdr 1 1 0) AF0).2 = eResult.AssemblingStarted := by
    rw [hstep1]
    simp only [hplen]
    rw [if_neg (by rintro ⟨-, hle⟩; omega)]
  have hA1 : ((xPES_Assembler.Init TPID).AbsorbPacket (c3pkt1 len)
      (mkHdr 1 1 0) AF0).1 = c3A1 len := by
    rw [hstep1]
    rfl
  have hstep2 := absorb3_cont (c3A1 len) (c3pkt2 (361 - len)) (mkHdr 0 3 1)
    (c3af len) rfl rfl rfl rfl rfl (by rw [c3af_len len h1 h2]; omega)
  have hfin : (c3A1 len).m_PESH.getPacketLength > 0 ∧
      ((c3A1 len).m_Buffer ++
        xPES_Assembler.payloadList (c3pkt2 (361 - len))
          (4 + ((c3af len).m_Len + 1))).length
        ≥ 6 + (c3A1 len).m_PESH.getPacketLength := by
    constructor
    · show len > 0
      omega
    · show _ ≥ 6 + len
      rw [c3af_len len h1 h2]
      simp only [List.length_append, payloadList_length, c3A1,
        xTS.TS_PacketLength]
      omega
  refine ⟨hr1, ?_, ?_⟩
  · rw [hA1, hstep2, if_pos hfin]
  · rw [hA1, hstep2, if_pos hfin]
    show ((c3A1 len).m_Buffer ++
      xPES_Assembler.payloadList (c3pkt2 (361 - len))
        (4 + ((c3af len).m_Len + 1))).length = 6 + len
    rw [c3af_len len h1 h2]
    simp only [List.length_append, payloadList_length, c3A1, xTS.TS_PacketLength]
    omega

/-- C3 witness: declared PES length 200; the unit spans 184 + 22 payload
bytes and the accumulated count is exactly 206. -/
theorem c3_two_packet_unit_witness :
    ((xPES_Assembler.Init TPID).AbsorbPacket (c3pkt1 200) (mkHdr 1 1 0) AF0).2
      = eResult.AssemblingStarted ∧
    ((((xPES_Assembler.Init TPID).AbsorbPacket (c3pkt1 200) (mkHdr 1 1 0) AF0).1).AbsorbPacket
        (c3pkt2 (361 - 200)) (mkHdr 0 3 1) (c3af 200)).2
      = eResult.AssemblingFinished ∧
    (((((xPES_Assembler.Init TPID).AbsorbPacket (c3pkt1 200) (mkHdr 1 1 0) AF0).1).AbsorbPacket
        (c3pkt2 (361 - 200)) (mkHdr 0 3 1) (c3af 200)).1).getNumPacketBytes
      = 6 + 200 :=
  c3_two_packet_unit 200 (by norm_num) (by norm_num)
